import Mathlib

/-!
Verification development for the rta-watchtower dashboard core.

The definitions below are a shallow embedding of the final iteration of the
code base:

* `src/unnamed/part_003` (the `lib/zendesk.ts` module): thresholds, channel
  classification, group seeding, cursor pagination with a 50-page cap,
  the single-pass metrics aggregation (`fetchTicketData`);
* `src/src/components/DashboardPage.tsx`: the filter projection and the
  group sorting performed in `processedData`.

Timestamps are modelled as integer milliseconds (the value of a parsed ISO
date); `date-fns`'s `differenceInMinutes` divides the millisecond difference
by 60000 and rounds toward zero, which is `Int.tdiv`.  JS numbers holding
counts are modelled as `Nat`, times as `Int` (they can be negative when a
timestamp lies in the future).  The mutable `Map` of group accumulators is
modelled as an insertion-ordered association list, which is what
`Array.from(map.values())` observes.
-/

/-- Ticket record as returned by the search API (part_003, `interface Ticket`). -/
structure Ticket where
  id : Int
  subject : String
  status : String
  assignee_id : Option Int
  group_id : Option Int
  created_at : Int
  updated_at : Int
  via_channel : String
deriving DecidableEq

/-- A work group as returned by the group listing (id and name). -/
structure WorkGroup where
  id : Int
  name : String
deriving DecidableEq

/-- Per-group accumulator (part_003, `interface GroupMetric`). -/
structure GroupMetric where
  id : Int
  name : String
  longestEmailWait : Int
  longestMsgWait : Int
  longestEmailAHT : Int
  longestMsgAHT : Int
  newEmail : Nat
  newMsg : Nat
  openEmail : Nat
  openMsg : Nat
  pendingTickets : Nat
  breachedWait : Nat
  breachedAHT : Nat
  totalBreached : Nat
deriving DecidableEq

/-- Global aggregate (part_003, `interface DashboardMetrics`); the nested
`longestWait`/`longestHandle` records are flattened into four fields. -/
structure DashboardMetrics where
  longestWaitTime : Int
  longestWaitTicketId : Int
  longestHandleTime : Int
  longestHandleTicketId : Int
  totalNew : Nat
  totalOpen : Nat
  breachedWaitCount : Nat
  breachedHandleCount : Nat
  groups : List GroupMetric
  isCapped : Bool
deriving DecidableEq

/-- THRESHOLDS.WAIT_TIME_BREACH (minutes). -/
def WAIT_TIME_BREACH : Int := 30

/-- THRESHOLDS.HANDLE_TIME_BREACH (minutes). -/
def HANDLE_TIME_BREACH : Int := 20

/-- CHANNELS.MESSAGING (part_003). -/
def MESSAGING_CHANNELS : List String :=
  ["messaging", "native_messaging", "chat", "facebook", "facebook_messenger",
   "instagram_direct", "line", "whatsapp", "twitter", "twitter_dm",
   "sms", "sunshine_conversations_api", "any_channel"]

/-- Membership test `CHANNELS.MESSAGING.includes(t.via.channel)`. -/
def isMessaging (channel : String) : Bool := MESSAGING_CHANNELS.contains channel

/-- date-fns `differenceInMinutes(a, b)`: millisecond difference divided by
60000 and rounded toward zero (the library's default rounding method). -/
def differenceInMinutes (a b : Int) : Int := Int.tdiv (a - b) 60000

/-- The zero-initialized metric seeded for a group (part_003 lines 59-64). -/
def seedZero (g : WorkGroup) : GroupMetric :=
  { id := g.id, name := g.name,
    longestEmailWait := 0, longestMsgWait := 0, longestEmailAHT := 0, longestMsgAHT := 0,
    newEmail := 0, newMsg := 0, openEmail := 0, openMsg := 0,
    pendingTickets := 0, breachedWait := 0, breachedAHT := 0, totalBreached := 0 }

/-- JS `Map.set` on an insertion-ordered association list keyed by `id`:
replace in place when the key exists, else append. -/
def mapSet (m : List GroupMetric) (g : GroupMetric) : List GroupMetric :=
  if m.any (fun x => x.id = g.id) then
    m.map (fun x => if x.id = g.id then g else x)
  else m ++ [g]

/-- Group seeding (part_003 lines 56-65): every listed group gets a fresh
zero metric, skipping groups outside a non-empty target filter. -/
def seedGroups (targetGroupIds : List Int) (allGroups : List WorkGroup) : List GroupMetric :=
  allGroups.foldl
    (fun acc g =>
      if decide (0 < targetGroupIds.length) && !(targetGroupIds.contains g.id) then acc
      else mapSet acc (seedZero g))
    []

/-- One page of the search API: the ticket list plus the `next_page` cursor,
or a failed request. -/
inductive PageResult where
  | ok (results : List Ticket) (next_page : Option Nat)
  | err
deriving DecidableEq

/-- The pagination page-count ceiling (`pages < 50`). -/
def PAGE_CAP : Nat := 50

/-- The pagination loop of part_003 lines 79-86: follow the cursor while a
next page exists and the budget of remaining pages is positive; a failed
page request stops the loop keeping what was accumulated. -/
def fetchLoop (fetch : Nat → PageResult) : Option Nat → Nat → List Ticket → List Ticket
  | none, _, acc => acc
  | some _, 0, acc => acc
  | some u, budget + 1, acc =>
    match fetch u with
    | .err => acc
    | .ok results next => fetchLoop fetch next budget (acc ++ results)

/-- The pagination loop instrumented with the reason it stopped: the boolean
is `true` exactly when the loop stopped because the page budget ran out
while a next-page cursor was still present. -/
def fetchLoopStop (fetch : Nat → PageResult) : Option Nat → Nat → List Ticket →
    List Ticket × Bool
  | none, _, acc => (acc, false)
  | some _, 0, acc => (acc, true)
  | some u, budget + 1, acc =>
    match fetch u with
    | .err => (acc, false)
    | .ok results next => fetchLoopStop fetch next budget (acc ++ results)

/-- Group id fallback `t.group_id || 0`. -/
def resolvedGroupId (t : Ticket) : Int := t.group_id.getD 0

/-- The per-group mutations of the `status === 'new'` branch
(part_003 lines 110-121): bump the channel new-count; when unassigned,
raise the channel longest-wait under strict greater-than and count a wait
breach when the wait strictly exceeds the threshold. -/
def newGroupUpdate (isMsg : Bool) (waitTime : Int) (unassigned : Bool)
    (g : GroupMetric) : GroupMetric :=
  let g1 := if isMsg then { g with newMsg := g.newMsg + 1 }
            else { g with newEmail := g.newEmail + 1 }
  if unassigned then
    let g2 := if isMsg then
        (if waitTime > g1.longestMsgWait then { g1 with longestMsgWait := waitTime } else g1)
      else
        (if waitTime > g1.longestEmailWait then { g1 with longestEmailWait := waitTime } else g1)
    if waitTime > WAIT_TIME_BREACH then
      { g2 with breachedWait := g2.breachedWait + 1, totalBreached := g2.totalBreached + 1 }
    else g2
  else g1

/-- The per-group mutations of the `status === 'open'` branch
(part_003 lines 127-137). -/
def openGroupUpdate (isMsg : Bool) (handleTime : Int) (g : GroupMetric) : GroupMetric :=
  let g1 := if isMsg then { g with openMsg := g.openMsg + 1 }
            else { g with openEmail := g.openEmail + 1 }
  let g2 := if isMsg then
      (if handleTime > g1.longestMsgAHT then { g1 with longestMsgAHT := handleTime } else g1)
    else
      (if handleTime > g1.longestEmailAHT then { g1 with longestEmailAHT := handleTime } else g1)
  if handleTime > HANDLE_TIME_BREACH then
    { g2 with breachedAHT := g2.breachedAHT + 1, totalBreached := g2.totalBreached + 1 }
  else g2

/-- The global-field mutations of the `new` branch (part_003 lines 112-121):
performed only when the ticket is unassigned. -/
def newGlobalUpdate (t : Ticket) (waitTime : Int) (m : DashboardMetrics) : DashboardMetrics :=
  if t.assignee_id.isNone then
    let m1 := if waitTime > m.longestWaitTime then
        { m with longestWaitTime := waitTime, longestWaitTicketId := t.id }
      else m
    if waitTime > WAIT_TIME_BREACH then
      { m1 with breachedWaitCount := m1.breachedWaitCount + 1 }
    else m1
  else m

/-- The global-field mutations of the `open` branch (part_003 lines 128-137):
unconditional on assignment. -/
def openGlobalUpdate (t : Ticket) (handleTime : Int) (m : DashboardMetrics) : DashboardMetrics :=
  let m1 := if handleTime > m.longestHandleTime then
      { m with longestHandleTime := handleTime, longestHandleTicketId := t.id }
    else m
  if handleTime > HANDLE_TIME_BREACH then
    { m1 with breachedHandleCount := m1.breachedHandleCount + 1 }
  else m1

/-- Apply `f` to every stored metric whose id is `gId` (the JS code mutates
the unique `Map` entry; on the association list this is a pointwise map). -/
def updateGroup (gs : List GroupMetric) (gId : Int) (f : GroupMetric → GroupMetric) :
    List GroupMetric :=
  gs.map (fun g => if g.id = gId then f g else g)

/-- One iteration of the `allTickets.forEach` fold (part_003 lines 99-139).
A ticket whose resolved group id is not seeded touches nothing; otherwise
the two sequential status conditionals fire for `new` and `open`.  The
group-map mutations and the global-field mutations commute because they
touch disjoint state, so each branch is written as the global update applied
to the record with the bumped total and the updated group list. -/
def processTicket (now : Int) (m : DashboardMetrics) (t : Ticket) : DashboardMetrics :=
  let gId := resolvedGroupId t
  if m.groups.any (fun g => g.id = gId) then
    let waitTime := differenceInMinutes now t.created_at
    let handleTime := differenceInMinutes now t.updated_at
    let isMsg := isMessaging t.via_channel
    let mA := if t.status = "new" then
        newGlobalUpdate t waitTime
          { m with totalNew := m.totalNew + 1,
                   groups := updateGroup m.groups gId
                     (newGroupUpdate isMsg waitTime t.assignee_id.isNone) }
      else m
    if t.status = "open" then
      openGlobalUpdate t handleTime
        { mA with totalOpen := mA.totalOpen + 1,
                  groups := updateGroup mA.groups gId (openGroupUpdate isMsg handleTime) }
    else mA
  else m

/-- The empty metrics record created before the fold (part_003 lines 92-97),
with the seeded groups installed (the JS code sets `metrics.groups` from the
map after the fold; the fold never reads or writes `metrics.groups`, so
carrying the seeded list through the fold is observationally identical). -/
def initMetrics (seeded : List GroupMetric) (isCapped : Bool) : DashboardMetrics :=
  { longestWaitTime := 0, longestWaitTicketId := 0,
    longestHandleTime := 0, longestHandleTicketId := 0,
    totalNew := 0, totalOpen := 0, breachedWaitCount := 0, breachedHandleCount := 0,
    groups := seeded, isCapped := isCapped }

/-- The metrics fold over the fetched tickets. -/
def aggregate (now : Int) (seeded : List GroupMetric) (isCapped : Bool)
    (tickets : List Ticket) : DashboardMetrics :=
  tickets.foldl (processTicket now) (initMetrics seeded isCapped)

/-- Function `fetchTicketData` (part_003 lines 49-143) with the transport abstracted:
seed the groups, run the pagination loop from the initial search URL with
the 50-page budget, set `isCapped` from the fetched volume
(`allTickets.length >= 1000`), and fold the tickets. -/
def fetchTicketData (targetGroupIds : List Int) (allGroups : List WorkGroup)
    (fetch : Nat → PageResult) (now : Int) : DashboardMetrics :=
  let seeded := seedGroups targetGroupIds allGroups
  let allTickets := fetchLoop fetch (some 0) PAGE_CAP []
  let isCapped := decide (1000 ≤ allTickets.length)
  aggregate now seeded isCapped allTickets

/-- Entry point `fetchTicketData` including the guard on the ZAF client binding: without
a client the call throws; otherwise it resolves with the aggregate. -/
def fetchTicketDataE (hasClient : Bool) (targetGroupIds : List Int) (allGroups : List WorkGroup)
    (fetch : Nat → PageResult) (now : Int) : Except String DashboardMetrics :=
  if hasClient then .ok (fetchTicketData targetGroupIds allGroups fetch now)
  else .error "ZAF Client not initialized"

/-- A page-request backend given by a list of successful pages followed by a
failing request: cursor `u` yields page `u` linking to cursor `u + 1`, and
any cursor past the end fails. -/
def pagesFetch (pages : List (List Ticket)) (u : Nat) : PageResult :=
  match pages.get? u with
  | some results => .ok results (some (u + 1))
  | none => .err

/-- Value of `Math.max(...l, 0)`. -/
def listMaxInt (l : List Int) : Int := l.foldr max 0

/-- Larger of the two per-channel longest waits of a group
(`Math.max(g.longestEmailWait, g.longestMsgWait)`). -/
def maxWaitAcross (g : GroupMetric) : Int := max g.longestEmailWait g.longestMsgWait

/-- Larger of the two per-channel longest handle times of a group. -/
def maxAHTAcross (g : GroupMetric) : Int := max g.longestEmailAHT g.longestMsgAHT

/-- The default comparator of DashboardPage line 102 read as a total
preorder: `a` may precede `b` when the comparator value
`b.totalBreached - a.totalBreached || maxWait(b) - maxWait(a)` is `<= 0`. -/
def defaultLe (a b : GroupMetric) : Bool :=
  decide (b.totalBreached < a.totalBreached) ||
    (decide (b.totalBreached = a.totalBreached) &&
      decide (maxWaitAcross b ≤ maxWaitAcross a))

/-- The default ordering pass: JS `Array.prototype.sort` is a stable sort,
modelled by `List.mergeSort` with the comparator above. -/
def defaultSort (gs : List GroupMetric) : List GroupMetric := gs.mergeSort defaultLe

/-- Sortable columns of the group table (DashboardPage `keyof GroupMetric`). -/
inductive SortKey where
  | name
  | longestEmailWait
  | longestMsgWait
  | longestEmailAHT
  | longestMsgAHT
  | newEmail
  | newMsg
  | openEmail
  | openMsg
  | totalBreached
deriving DecidableEq

/-- Sort direction. -/
inductive SortDirection where
  | asc
  | desc
deriving DecidableEq

/-- Explicit sort configuration (`sortConfig`). -/
structure SortConfig where
  key : SortKey
  direction : SortDirection

/-- Numeric value of a numeric sort column. -/
def numVal (k : SortKey) (g : GroupMetric) : Int :=
  match k with
  | .name => 0
  | .longestEmailWait => g.longestEmailWait
  | .longestMsgWait => g.longestMsgWait
  | .longestEmailAHT => g.longestEmailAHT
  | .longestMsgAHT => g.longestMsgAHT
  | .newEmail => g.newEmail
  | .newMsg => g.newMsg
  | .openEmail => g.openEmail
  | .openMsg => g.openMsg
  | .totalBreached => g.totalBreached

/-- The explicit comparator of DashboardPage lines 95-100 as a total
preorder.  The string column is compared by `localeCompare`, modelled as
lexicographic string order; numeric columns by numeric order; `desc` flips
the comparison. -/
def configLe (cfg : SortConfig) (a b : GroupMetric) : Bool :=
  match cfg.key, cfg.direction with
  | .name, .asc => decide (a.name ≤ b.name)
  | .name, .desc => decide (b.name ≤ a.name)
  | k, .asc => decide (numVal k a ≤ numVal k b)
  | k, .desc => decide (numVal k b ≤ numVal k a)

/-- The `processedData` projection of DashboardPage lines 90-119: keep the
selected groups, sort them (explicit config or default ordering), and
recompute every global field from the kept groups' finalized fields; the
longest-wait/longest-handle ticket ids are set to 0. -/
def projectMetrics (raw : DashboardMetrics) (selectedGroupIds : List Int)
    (sortConfig : Option SortConfig) : DashboardMetrics :=
  let active := raw.groups.filter (fun g => selectedGroupIds.contains g.id)
  let sorted := match sortConfig with
    | some cfg => active.mergeSort (configLe cfg)
    | none => defaultSort active
  { raw with
    groups := sorted,
    totalNew := (sorted.map (fun g => g.newEmail + g.newMsg)).sum,
    totalOpen := (sorted.map (fun g => g.openEmail + g.openMsg)).sum,
    longestWaitTime := listMaxInt (sorted.map maxWaitAcross),
    longestWaitTicketId := 0,
    longestHandleTime := listMaxInt (sorted.map maxAHTAcross),
    longestHandleTicketId := 0,
    breachedWaitCount := (sorted.map (fun g => g.breachedWait)).sum,
    breachedHandleCount := (sorted.map (fun g => g.breachedAHT)).sum }

/-- Relations the fold maintains between the global fields and the per-group
accumulators: the three totals are group sums, the two longest times are
group maxima, and group ids stay duplicate-free. -/
def AggInv (m : DashboardMetrics) : Prop :=
  m.totalNew = (m.groups.map (fun g => g.newEmail + g.newMsg)).sum ∧
  m.totalOpen = (m.groups.map (fun g => g.openEmail + g.openMsg)).sum ∧
  m.breachedWaitCount = (m.groups.map (fun g => g.breachedWait)).sum ∧
  m.breachedHandleCount = (m.groups.map (fun g => g.breachedAHT)).sum ∧
  m.longestWaitTime = listMaxInt (m.groups.map maxWaitAcross) ∧
  m.longestHandleTime = listMaxInt (m.groups.map maxAHTAcross) ∧
  (m.groups.map (fun g => g.id)).Nodup

/-- Comparator described by the spec for the default ordering, written from
the spec words for comparison with the code's `defaultLe`: descending by
total-breach count, ties broken by descending
max(longest-wait-across-channels, longest-handle-across-channels). -/
def specDefaultLe (a b : GroupMetric) : Bool :=
  decide (b.totalBreached < a.totalBreached) ||
    (decide (b.totalBreached = a.totalBreached) &&
      decide (max (maxWaitAcross b) (maxAHTAcross b) ≤
        max (maxWaitAcross a) (maxAHTAcross a)))

/-! ### Elementary facts about the update functions -/

theorem newGroupUpdate_id (isMsg : Bool) (w : Int) (u : Bool) (g : GroupMetric) :
    (newGroupUpdate isMsg w u g).id = g.id := by
  simp only [newGroupUpdate]; split_ifs <;> rfl

theorem openGroupUpdate_id (isMsg : Bool) (h : Int) (g : GroupMetric) :
    (openGroupUpdate isMsg h g).id = g.id := by
  simp only [openGroupUpdate]; split_ifs <;> rfl

theorem newGroupUpdate_newSum (isMsg : Bool) (w : Int) (u : Bool) (g : GroupMetric) :
    (newGroupUpdate isMsg w u g).newEmail + (newGroupUpdate isMsg w u g).newMsg =
      g.newEmail + g.newMsg + 1 := by
  simp only [newGroupUpdate]; split_ifs <;> simp <;> omega

theorem newGroupUpdate_openSum (isMsg : Bool) (w : Int) (u : Bool) (g : GroupMetric) :
    (newGroupUpdate isMsg w u g).openEmail + (newGroupUpdate isMsg w u g).openMsg =
      g.openEmail + g.openMsg := by
  simp only [newGroupUpdate]; split_ifs <;> rfl

theorem newGroupUpdate_breachedWait (isMsg : Bool) (w : Int) (u : Bool) (g : GroupMetric) :
    (newGroupUpdate isMsg w u g).breachedWait =
      g.breachedWait + (if u = true ∧ WAIT_TIME_BREACH < w then 1 else 0) := by
  simp only [newGroupUpdate]; split_ifs <;> simp_all <;> omega

theorem newGroupUpdate_breachedAHT (isMsg : Bool) (w : Int) (u : Bool) (g : GroupMetric) :
    (newGroupUpdate isMsg w u g).breachedAHT = g.breachedAHT := by
  simp only [newGroupUpdate]; split_ifs <;> rfl

theorem newGroupUpdate_maxWait (isMsg : Bool) (w : Int) (u : Bool) (g : GroupMetric) :
    maxWaitAcross (newGroupUpdate isMsg w u g) =
      if u = true then max (maxWaitAcross g) w else maxWaitAcross g := by
  simp only [newGroupUpdate, maxWaitAcross]
  split_ifs <;> simp_all [max_def] <;> split_ifs <;> omega

theorem newGroupUpdate_maxAHT (isMsg : Bool) (w : Int) (u : Bool) (g : GroupMetric) :
    maxAHTAcross (newGroupUpdate isMsg w u g) = maxAHTAcross g := by
  simp only [newGroupUpdate, maxAHTAcross]; split_ifs <;> rfl

theorem openGroupUpdate_newSum (isMsg : Bool) (h : Int) (g : GroupMetric) :
    (openGroupUpdate isMsg h g).newEmail + (openGroupUpdate isMsg h g).newMsg =
      g.newEmail + g.newMsg := by
  simp only [openGroupUpdate]; split_ifs <;> rfl

theorem openGroupUpdate_openSum (isMsg : Bool) (h : Int) (g : GroupMetric) :
    (openGroupUpdate isMsg h g).openEmail + (openGroupUpdate isMsg h g).openMsg =
      g.openEmail + g.openMsg + 1 := by
  simp only [openGroupUpdate]; split_ifs <;> simp <;> omega

theorem openGroupUpdate_breachedWait (isMsg : Bool) (h : Int) (g : GroupMetric) :
    (openGroupUpdate isMsg h g).breachedWait = g.breachedWait := by
  simp only [openGroupUpdate]; split_ifs <;> rfl

theorem openGroupUpdate_breachedAHT (isMsg : Bool) (h : Int) (g : GroupMetric) :
    (openGroupUpdate isMsg h g).breachedAHT =
      g.breachedAHT + (if HANDLE_TIME_BREACH < h then 1 else 0) := by
  simp only [openGroupUpdate]; split_ifs <;> simp_all <;> omega

theorem openGroupUpdate_maxWait (isMsg : Bool) (h : Int) (g : GroupMetric) :
    maxWaitAcross (openGroupUpdate isMsg h g) = maxWaitAcross g := by
  simp only [openGroupUpdate, maxWaitAcross]; split_ifs <;> rfl

theorem openGroupUpdate_maxAHT (isMsg : Bool) (h : Int) (g : GroupMetric) :
    maxAHTAcross (openGroupUpdate isMsg h g) = max (maxAHTAcross g) h := by
  simp only [openGroupUpdate, maxAHTAcross]
  split_ifs <;> simp_all [max_def] <;> split_ifs <;> omega

theorem newGlobalUpdate_groups (t : Ticket) (w : Int) (m : DashboardMetrics) :
    (newGlobalUpdate t w m).groups = m.groups := by
  simp only [newGlobalUpdate]; split_ifs <;> rfl

theorem newGlobalUpdate_totalNew (t : Ticket) (w : Int) (m : DashboardMetrics) :
    (newGlobalUpdate t w m).totalNew = m.totalNew := by
  simp only [newGlobalUpdate]; split_ifs <;> rfl

theorem newGlobalUpdate_totalOpen (t : Ticket) (w : Int) (m : DashboardMetrics) :
    (newGlobalUpdate t w m).totalOpen = m.totalOpen := by
  simp only [newGlobalUpdate]; split_ifs <;> rfl

theorem newGlobalUpdate_breachedWaitCount (t : Ticket) (w : Int) (m : DashboardMetrics) :
    (newGlobalUpdate t w m).breachedWaitCount =
      m.breachedWaitCount +
        (if t.assignee_id.isNone = true ∧ WAIT_TIME_BREACH < w then 1 else 0) := by
  simp only [newGlobalUpdate]; split_ifs <;> simp_all <;> omega

theorem newGlobalUpdate_breachedHandleCount (t : Ticket) (w : Int) (m : DashboardMetrics) :
    (newGlobalUpdate t w m).breachedHandleCount = m.breachedHandleCount := by
  simp only [newGlobalUpdate]; split_ifs <;> rfl

theorem newGlobalUpdate_longestWaitTime (t : Ticket) (w : Int) (m : DashboardMetrics) :
    (newGlobalUpdate t w m).longestWaitTime =
      if t.assignee_id.isNone = true then max m.longestWaitTime w
      else m.longestWaitTime := by
  simp only [newGlobalUpdate]; split_ifs <;> simp_all [max_def] <;> split_ifs <;> omega

theorem newGlobalUpdate_longestHandleTime (t : Ticket) (w : Int) (m : DashboardMetrics) :
    (newGlobalUpdate t w m).longestHandleTime = m.longestHandleTime := by
  simp only [newGlobalUpdate]; split_ifs <;> rfl

theorem newGlobalUpdate_longestHandleTicketId (t : Ticket) (w : Int) (m : DashboardMetrics) :
    (newGlobalUpdate t w m).longestHandleTicketId = m.longestHandleTicketId := by
  simp only [newGlobalUpdate]; split_ifs <;> rfl

theorem newGlobalUpdate_isCapped (t : Ticket) (w : Int) (m : DashboardMetrics) :
    (newGlobalUpdate t w m).isCapped = m.isCapped := by
  simp only [newGlobalUpdate]; split_ifs <;> rfl

theorem newGlobalUpdate_assigned (t : Ticket) (w : Int) (m : DashboardMetrics)
    (h : t.assignee_id.isNone = false) : newGlobalUpdate t w m = m := by
  simp only [newGlobalUpdate, h]; simp

theorem openGlobalUpdate_groups (t : Ticket) (h : Int) (m : DashboardMetrics) :
    (openGlobalUpdate t h m).groups = m.groups := by
  simp only [openGlobalUpdate]; split_ifs <;> rfl

theorem openGlobalUpdate_totalNew (t : Ticket) (h : Int) (m : DashboardMetrics) :
    (openGlobalUpdate t h m).totalNew = m.totalNew := by
  simp only [openGlobalUpdate]; split_ifs <;> rfl

theorem openGlobalUpdate_totalOpen (t : Ticket) (h : Int) (m : DashboardMetrics) :
    (openGlobalUpdate t h m).totalOpen = m.totalOpen := by
  simp only [openGlobalUpdate]; split_ifs <;> rfl

theorem openGlobalUpdate_breachedWaitCount (t : Ticket) (h : Int) (m : DashboardMetrics) :
    (openGlobalUpdate t h m).breachedWaitCount = m.breachedWaitCount := by
  simp only [openGlobalUpdate]; split_ifs <;> rfl

theorem openGlobalUpdate_breachedHandleCount (t : Ticket) (h : Int) (m : DashboardMetrics) :
    (openGlobalUpdate t h m).breachedHandleCount =
      m.breachedHandleCount + (if HANDLE_TIME_BREACH < h then 1 else 0) := by
  simp only [openGlobalUpdate]; split_ifs <;> simp_all <;> omega

theorem openGlobalUpdate_longestWaitTime (t : Ticket) (h : Int) (m : DashboardMetrics) :
    (openGlobalUpdate t h m).longestWaitTime = m.longestWaitTime := by
  simp only [openGlobalUpdate]; split_ifs <;> rfl

theorem openGlobalUpdate_longestWaitTicketId (t : Ticket) (h : Int) (m : DashboardMetrics) :
    (openGlobalUpdate t h m).longestWaitTicketId = m.longestWaitTicketId := by
  simp only [openGlobalUpdate]; split_ifs <;> rfl

theorem openGlobalUpdate_longestHandleTime (t : Ticket) (h : Int) (m : DashboardMetrics) :
    (openGlobalUpdate t h m).longestHandleTime =
      max m.longestHandleTime h := by
  simp only [openGlobalUpdate]; split_ifs <;> simp_all [max_def] <;> split_ifs <;> omega

theorem openGlobalUpdate_isCapped (t : Ticket) (h : Int) (m : DashboardMetrics) :
    (openGlobalUpdate t h m).isCapped = m.isCapped := by
  simp only [openGlobalUpdate]; split_ifs <;> rfl

/-! ### Lemmas about `updateGroup` and `listMaxInt` -/

theorem updateGroup_of_forall_ne (gs : List GroupMetric) (gId : Int)
    (f : GroupMetric → GroupMetric) (h : ∀ g ∈ gs, ¬ g.id = gId) :
    updateGroup gs gId f = gs := by
  unfold updateGroup
  induction gs with
  | nil => rfl
  | cons a l ih =>
    simp only [List.map_cons, List.mem_cons] at *
    rw [if_neg (h a (Or.inl rfl)), ih (fun g hg => h g (Or.inr hg))]

theorem updateGroup_map_field {α : Type} (field : GroupMetric → α)
    (f : GroupMetric → GroupMetric) (hf : ∀ g, field (f g) = field g)
    (gs : List GroupMetric) (gId : Int) :
    (updateGroup gs gId f).map field = gs.map field := by
  unfold updateGroup
  rw [List.map_map]
  refine List.map_congr_left (fun g _ => ?_)
  by_cases hg : g.id = gId <;> simp [hg, hf]

theorem sum_map_updateGroup (field : GroupMetric → Nat) (d : Nat)
    (f : GroupMetric → GroupMetric) (hf : ∀ g, field (f g) = field g + d)
    (gs : List GroupMetric) (gId : Int)
    (hmem : gs.any (fun g => g.id = gId) = true)
    (hnodup : (gs.map (fun g => g.id)).Nodup) :
    ((updateGroup gs gId f).map field).sum = (gs.map field).sum + d := by
  induction gs with
  | nil => simp at hmem
  | cons a l ih =>
    simp only [List.map_cons, List.nodup_cons, List.mem_map] at hnodup
    by_cases ha : a.id = gId
    · have hl : updateGroup l gId f = l := by
        refine updateGroup_of_forall_ne l gId f (fun g hg hgid => ?_)
        exact hnodup.1 ⟨g, hg, by rw [hgid, ha]⟩
      simp only [updateGroup, List.map_cons, if_pos ha] at *
      simp only [List.map_cons, List.sum_cons, hl, hf a]
      omega
    · have hmem' : l.any (fun g => g.id = gId) = true := by
        simpa [List.any_cons, ha] using hmem
      have := ih hmem' hnodup.2
      simp only [updateGroup, List.map_cons, if_neg ha] at *
      simp only [List.map_cons, List.sum_cons, this]
      omega

theorem listMaxInt_cons (x : Int) (l : List Int) :
    listMaxInt (x :: l) = max x (listMaxInt l) := rfl

theorem maxmap_updateGroup (field : GroupMetric → Int) (w : Int)
    (f : GroupMetric → GroupMetric) (hf : ∀ g, field (f g) = max (field g) w)
    (gs : List GroupMetric) (gId : Int)
    (hmem : gs.any (fun g => g.id = gId) = true) :
    listMaxInt ((updateGroup gs gId f).map field) =
      max (listMaxInt (gs.map field)) w := by
  induction gs with
  | nil => simp at hmem
  | cons a l ih =>
    by_cases ha : a.id = gId
    · by_cases hl : l.any (fun g => g.id = gId) = true
      · have := ih hl
        simp only [updateGroup, List.map_cons, if_pos ha] at *
        simp only [List.map_cons, listMaxInt_cons, this, hf a]
        simp only [max_def]; split_ifs <;> omega
      · have hll : updateGroup l gId f = l := by
          refine updateGroup_of_forall_ne l gId f (fun g hg hgid => ?_)
          have : l.any (fun g => g.id = gId) = true :=
            List.any_eq_true.mpr ⟨g, hg, by simp [hgid]⟩
          exact hl this
        simp only [updateGroup, List.map_cons, if_pos ha] at *
        simp only [List.map_cons, listMaxInt_cons, hll, hf a]
        simp only [max_def]; split_ifs <;> omega
    · have hmem' : l.any (fun g => g.id = gId) = true := by
        simpa [List.any_cons, ha] using hmem
      have := ih hmem'
      simp only [updateGroup, List.map_cons, if_neg ha] at *
      simp only [List.map_cons, listMaxInt_cons, this]
      simp only [max_def]; split_ifs <;> omega

theorem find?_updateGroup_ne (gs : List GroupMetric) (gId gid : Int)
    (f : GroupMetric → GroupMetric) (hne : ¬ gid = gId)
    (hf : ∀ g, (f g).id = g.id) :
    (updateGroup gs gId f).find? (fun g => g.id = gid) =
      gs.find? (fun g => g.id = gid) := by
  induction gs with
  | nil => rfl
  | cons a l ih =>
    have hcons : updateGroup (a :: l) gId f =
        (if a.id = gId then f a else a) :: updateGroup l gId f := rfl
    rw [hcons]
    by_cases hp : a.id = gid
    · have haId : ¬ a.id = gId := by rw [hp]; exact hne
      rw [if_neg haId, List.find?_cons_of_pos _ (by simp [hp]),
        List.find?_cons_of_pos _ (by simp [hp])]
    · by_cases ha : a.id = gId
      · rw [if_pos ha, List.find?_cons_of_neg _ (by simp [hf a, hp]),
          List.find?_cons_of_neg _ (by simp [hp]), ih]
      · rw [if_neg ha, List.find?_cons_of_neg _ (by simp [hp]),
          List.find?_cons_of_neg _ (by simp [hp]), ih]

theorem find?_updateGroup_self (gs : List GroupMetric) (gId : Int)
    (f : GroupMetric → GroupMetric) (hf : ∀ g, (f g).id = g.id) :
    (updateGroup gs gId f).find? (fun g => g.id = gId) =
      (gs.find? (fun g => g.id = gId)).map f := by
  induction gs with
  | nil => rfl
  | cons a l ih =>
    have hcons : updateGroup (a :: l) gId f =
        (if a.id = gId then f a else a) :: updateGroup l gId f := rfl
    rw [hcons]
    by_cases ha : a.id = gId
    · rw [if_pos ha, List.find?_cons_of_pos _ (by simp [hf a, ha]),
        List.find?_cons_of_pos _ (by simp [ha])]
      rfl
    · rw [if_neg ha, List.find?_cons_of_neg _ (by simp [ha]),
        List.find?_cons_of_neg _ (by simp [ha]), ih]

/-! ### The four shapes of a fold step -/

theorem processTicket_skip (now : Int) (m : DashboardMetrics) (t : Ticket)
    (h : m.groups.any (fun g => g.id = resolvedGroupId t) = false) :
    processTicket now m t = m := by
  simp only [processTicket, h]
  simp

theorem processTicket_other (now : Int) (m : DashboardMetrics) (t : Ticket)
    (hnew : ¬ t.status = "new") (hopen : ¬ t.status = "open") :
    processTicket now m t = m := by
  simp only [processTicket, if_neg hnew, if_neg hopen]
  split <;> rfl

theorem processTicket_new (now : Int) (m : DashboardMetrics) (t : Ticket)
    (hnew : t.status = "new")
    (hmem : m.groups.any (fun g => g.id = resolvedGroupId t) = true) :
    processTicket now m t =
      newGlobalUpdate t (differenceInMinutes now t.created_at)
        { m with totalNew := m.totalNew + 1,
                 groups := updateGroup m.groups (resolvedGroupId t)
                   (newGroupUpdate (isMessaging t.via_channel)
                     (differenceInMinutes now t.created_at) t.assignee_id.isNone) } := by
  have hopen : ¬ t.status = "open" := by rw [hnew]; decide
  simp only [processTicket, hmem, if_pos hnew, if_neg hopen]
  simp

theorem processTicket_open (now : Int) (m : DashboardMetrics) (t : Ticket)
    (hopen : t.status = "open")
    (hmem : m.groups.any (fun g => g.id = resolvedGroupId t) = true) :
    processTicket now m t =
      openGlobalUpdate t (differenceInMinutes now t.updated_at)
        { m with totalOpen := m.totalOpen + 1,
                 groups := updateGroup m.groups (resolvedGroupId t)
                   (openGroupUpdate (isMessaging t.via_channel)
                     (differenceInMinutes now t.updated_at)) } := by
  have hnew : ¬ t.status = "new" := by rw [hopen]; decide
  simp only [processTicket, hmem, if_neg hnew, if_pos hopen]
  simp

/-! ### Seeding lemmas -/

theorem seedGroups_shape (targetGroupIds : List Int) (allGroups : List WorkGroup) :
    (∀ x ∈ seedGroups targetGroupIds allGroups, ∃ g, x = seedZero g) ∧
      ((seedGroups targetGroupIds allGroups).map (fun g => g.id)).Nodup := by
  suffices h : ∀ (l : List WorkGroup) (acc : List GroupMetric),
      (∀ x ∈ acc, ∃ g, x = seedZero g) → (acc.map (fun g => g.id)).Nodup →
      (∀ x ∈ l.foldl
          (fun acc g =>
            if decide (0 < targetGroupIds.length) && !(targetGroupIds.contains g.id) then acc
            else mapSet acc (seedZero g)) acc, ∃ g, x = seedZero g) ∧
        ((l.foldl
          (fun acc g =>
            if decide (0 < targetGroupIds.length) && !(targetGroupIds.contains g.id) then acc
            else mapSet acc (seedZero g)) acc).map (fun g => g.id)).Nodup by
    exact h allGroups [] (by simp) (by simp)
  intro l
  induction l with
  | nil => intro acc h1 h2; exact ⟨h1, h2⟩
  | cons a l ih =>
    intro acc h1 h2
    simp only [List.foldl_cons]
    by_cases hskip :
        (decide (0 < targetGroupIds.length) && !(targetGroupIds.contains a.id)) = true
    · rw [if_pos hskip]; exact ih acc h1 h2
    · rw [if_neg hskip]
      unfold mapSet
      by_cases hany : acc.any (fun x => x.id = (seedZero a).id) = true
      · rw [if_pos hany]
        refine ih _ (fun x hx => ?_) ?_
        · rcases List.mem_map.mp hx with ⟨y, hy, rfl⟩
          by_cases hxy : y.id = (seedZero a).id
          · simp only [if_pos hxy]; exact ⟨a, rfl⟩
          · simp only [if_neg hxy]; exact h1 y hy
        · have : (acc.map (fun x => if x.id = (seedZero a).id then seedZero a else x)).map
              (fun g => g.id) = acc.map (fun g => g.id) := by
            rw [List.map_map]
            refine List.map_congr_left (fun x _ => ?_)
            by_cases hxy : x.id = (seedZero a).id
            · simp [hxy]
            · simp [hxy]
          rw [this]; exact h2
      · rw [if_neg hany]
        refine ih _ (fun x hx => ?_) ?_
        · rcases List.mem_append.mp hx with hx | hx
          · exact h1 x hx
          · simp only [List.mem_singleton] at hx
            exact ⟨a, hx⟩
        · rw [List.map_append]
          simp only [List.map_cons, List.map_nil]
          rw [List.nodup_append]
          refine ⟨h2, List.nodup_singleton _, ?_⟩
          intro y hy
          rcases List.mem_map.mp hy with ⟨x, hxmem, rfl⟩
          simp only [List.mem_singleton]
          intro hcontra
          rw [Bool.not_eq_true] at hany
          have := List.any_eq_false.mp hany x hxmem
          simp only [decide_eq_true_eq] at this
          exact this hcontra

theorem seedGroups_allZero (targetGroupIds : List Int) (allGroups : List WorkGroup) :
    ∀ x ∈ seedGroups targetGroupIds allGroups, ∃ g, x = seedZero g :=
  (seedGroups_shape targetGroupIds allGroups).1

theorem seedGroups_nodupIds (targetGroupIds : List Int) (allGroups : List WorkGroup) :
    ((seedGroups targetGroupIds allGroups).map (fun g => g.id)).Nodup :=
  (seedGroups_shape targetGroupIds allGroups).2

theorem seedGroups_eq_filter (targetGroupIds : List Int) (allGroups : List WorkGroup)
    (hnodup : (allGroups.map (fun g => g.id)).Nodup) :
    seedGroups targetGroupIds allGroups =
      (allGroups.filter
        (fun g => targetGroupIds.isEmpty || targetGroupIds.contains g.id)).map seedZero := by
  have hcond : ∀ g : WorkGroup,
      (decide (0 < targetGroupIds.length) && !(targetGroupIds.contains g.id)) =
        !(targetGroupIds.isEmpty || targetGroupIds.contains g.id) := by
    intro g; cases targetGroupIds <;> simp
  suffices h : ∀ (l : List WorkGroup) (acc : List GroupMetric),
      (l.map (fun g => g.id)).Nodup →
      (∀ g ∈ l, acc.any (fun x => x.id = g.id) = false) →
      l.foldl
          (fun acc g =>
            if decide (0 < targetGroupIds.length) && !(targetGroupIds.contains g.id) then acc
            else mapSet acc (seedZero g)) acc =
        acc ++
          (l.filter
            (fun g => targetGroupIds.isEmpty || targetGroupIds.contains g.id)).map seedZero by
    exact h allGroups [] hnodup (by simp)
  intro l
  induction l with
  | nil => intro acc _ _; simp
  | cons a l ih =>
    intro acc hnd hacc
    simp only [List.map_cons, List.nodup_cons, List.mem_map] at hnd
    simp only [List.foldl_cons, hcond a]
    by_cases hkeep : (targetGroupIds.isEmpty || targetGroupIds.contains a.id) = true
    · rw [hkeep]
      simp only [Bool.not_true, Bool.false_eq_true, if_false]
      have hany : acc.any (fun x => x.id = (seedZero a).id) = false := by
        have := hacc a (List.mem_cons_self a l)
        simpa [seedZero] using this
      have hstep : mapSet acc (seedZero a) = acc ++ [seedZero a] := by
        unfold mapSet; rw [hany]; simp
      rw [hstep, ih]
      · have hk : targetGroupIds = [] ∨ a.id ∈ targetGroupIds := by simpa using hkeep
        simp [List.filter_cons, hk]
      · exact hnd.2
      · intro g hg
        rw [List.any_eq_false]
        intro x hx
        rcases List.mem_append.mp hx with hx | hx
        · have := List.any_eq_false.mp (hacc g (List.mem_cons_of_mem a hg)) x hx
          exact this
        · simp only [List.mem_singleton] at hx
          subst hx
          simp only [seedZero, decide_eq_true_eq]
          intro hcontra
          exact hnd.1 ⟨g, hg, hcontra.symm⟩
    · rw [Bool.not_eq_true] at hkeep
      rw [hkeep]
      simp only [Bool.not_false, if_true]
      rw [ih acc hnd.2 (fun g hg => hacc g (List.mem_cons_of_mem a hg))]
      have hk : ¬ (targetGroupIds = [] ∨ a.id ∈ targetGroupIds) := by simpa using hkeep
      simp [List.filter_cons, hk]

/-! ### The aggregation invariant -/

theorem inv_processTicket (now : Int) (m : DashboardMetrics) (t : Ticket) (h : AggInv m) :
    AggInv (processTicket now m t) := by
  obtain ⟨h1, h2, h3, h4, h5, h6, h7⟩ := h
  cases hmem : m.groups.any (fun g => g.id = resolvedGroupId t) with
  | false =>
    rw [processTicket_skip now m t hmem]
    exact ⟨h1, h2, h3, h4, h5, h6, h7⟩
  | true =>
    by_cases hnew : t.status = "new"
    · rw [processTicket_new now m t hnew hmem]
      refine ⟨?_, ?_, ?_, ?_, ?_, ?_, ?_⟩
      · rw [newGlobalUpdate_totalNew, newGlobalUpdate_groups]
        dsimp only
        rw [sum_map_updateGroup (fun g => g.newEmail + g.newMsg) 1 _
          (fun g => newGroupUpdate_newSum _ _ _ g) m.groups _ hmem h7, h1]
      · rw [newGlobalUpdate_totalOpen, newGlobalUpdate_groups]
        dsimp only
        rw [updateGroup_map_field (fun g => g.openEmail + g.openMsg) _
          (fun g => newGroupUpdate_openSum _ _ _ g), h2]
      · rw [newGlobalUpdate_breachedWaitCount, newGlobalUpdate_groups]
        dsimp only
        rw [sum_map_updateGroup (fun g => g.breachedWait)
          (if t.assignee_id.isNone = true ∧
              WAIT_TIME_BREACH < differenceInMinutes now t.created_at then 1 else 0) _
          (fun g => newGroupUpdate_breachedWait _ _ _ g) m.groups _ hmem h7, h3]
      · rw [newGlobalUpdate_breachedHandleCount, newGlobalUpdate_groups]
        dsimp only
        rw [updateGroup_map_field (fun g => g.breachedAHT) _
          (fun g => newGroupUpdate_breachedAHT _ _ _ g), h4]
      · rw [newGlobalUpdate_longestWaitTime, newGlobalUpdate_groups]
        dsimp only
        by_cases hu : t.assignee_id.isNone = true
        · rw [if_pos hu]
          rw [maxmap_updateGroup maxWaitAcross (differenceInMinutes now t.created_at) _
            (fun g => by rw [newGroupUpdate_maxWait, if_pos hu]) m.groups _ hmem, h5]
        · rw [if_neg hu]
          rw [updateGroup_map_field maxWaitAcross _
            (fun g => by rw [newGroupUpdate_maxWait, if_neg hu]), h5]
      · rw [newGlobalUpdate_longestHandleTime, newGlobalUpdate_groups]
        dsimp only
        rw [updateGroup_map_field maxAHTAcross _
          (fun g => newGroupUpdate_maxAHT _ _ _ g), h6]
      · rw [newGlobalUpdate_groups]
        dsimp only
        rw [updateGroup_map_field (fun g => g.id) _
          (fun g => newGroupUpdate_id _ _ _ g)]
        exact h7
    · by_cases hopen : t.status = "open"
      · rw [processTicket_open now m t hopen hmem]
        refine ⟨?_, ?_, ?_, ?_, ?_, ?_, ?_⟩
        · rw [openGlobalUpdate_totalNew, openGlobalUpdate_groups]
          dsimp only
          rw [updateGroup_map_field (fun g => g.newEmail + g.newMsg) _
            (fun g => openGroupUpdate_newSum _ _ g), h1]
        · rw [openGlobalUpdate_totalOpen, openGlobalUpdate_groups]
          dsimp only
          rw [sum_map_updateGroup (fun g => g.openEmail + g.openMsg) 1 _
            (fun g => openGroupUpdate_openSum _ _ g) m.groups _ hmem h7, h2]
        · rw [openGlobalUpdate_breachedWaitCount, openGlobalUpdate_groups]
          dsimp only
          rw [updateGroup_map_field (fun g => g.breachedWait) _
            (fun g => openGroupUpdate_breachedWait _ _ g), h3]
        · rw [openGlobalUpdate_breachedHandleCount, openGlobalUpdate_groups]
          dsimp only
          rw [sum_map_updateGroup (fun g => g.breachedAHT)
            (if HANDLE_TIME_BREACH < differenceInMinutes now t.updated_at then 1 else 0) _
            (fun g => openGroupUpdate_breachedAHT _ _ g) m.groups _ hmem h7, h4]
        · rw [openGlobalUpdate_longestWaitTime, openGlobalUpdate_groups]
          dsimp only
          rw [updateGroup_map_field maxWaitAcross _
            (fun g => openGroupUpdate_maxWait _ _ g), h5]
        · rw [openGlobalUpdate_longestHandleTime, openGlobalUpdate_groups]
          dsimp only
          rw [maxmap_updateGroup maxAHTAcross (differenceInMinutes now t.updated_at) _
            (fun g => openGroupUpdate_maxAHT _ _ g) m.groups _ hmem, h6]
        · rw [openGlobalUpdate_groups]
          dsimp only
          rw [updateGroup_map_field (fun g => g.id) _
            (fun g => openGroupUpdate_id _ _ g)]
          exact h7
      · rw [processTicket_other now m t hnew hopen]
        exact ⟨h1, h2, h3, h4, h5, h6, h7⟩

theorem inv_foldl (now : Int) (ts : List Ticket) (m : DashboardMetrics) (h : AggInv m) :
    AggInv (ts.foldl (processTicket now) m) := by
  induction ts generalizing m with
  | nil => exact h
  | cons t ts ih => exact ih _ (inv_processTicket now m t h)

theorem listMaxInt_of_all_zero (l : List Int) (h : ∀ x ∈ l, x = 0) : listMaxInt l = 0 := by
  induction l with
  | nil => rfl
  | cons a l ih =>
    rw [listMaxInt_cons, h a (List.mem_cons_self a l),
      ih (fun x hx => h x (List.mem_cons_of_mem a hx))]
    simp

theorem inv_init (targetGroupIds : List Int) (allGroups : List WorkGroup) (cap : Bool) :
    AggInv (initMetrics (seedGroups targetGroupIds allGroups) cap) := by
  have hz := seedGroups_allZero targetGroupIds allGroups
  refine ⟨?_, ?_, ?_, ?_, ?_, ?_, ?_⟩
  · dsimp only [initMetrics]
    rw [List.sum_eq_zero]
    intro x hx
    rcases List.mem_map.mp hx with ⟨g, hg, rfl⟩
    rcases hz g hg with ⟨wg, rfl⟩
    rfl
  · dsimp only [initMetrics]
    rw [List.sum_eq_zero]
    intro x hx
    rcases List.mem_map.mp hx with ⟨g, hg, rfl⟩
    rcases hz g hg with ⟨wg, rfl⟩
    rfl
  · dsimp only [initMetrics]
    rw [List.sum_eq_zero]
    intro x hx
    rcases List.mem_map.mp hx with ⟨g, hg, rfl⟩
    rcases hz g hg with ⟨wg, rfl⟩
    rfl
  · dsimp only [initMetrics]
    rw [List.sum_eq_zero]
    intro x hx
    rcases List.mem_map.mp hx with ⟨g, hg, rfl⟩
    rcases hz g hg with ⟨wg, rfl⟩
    rfl
  · dsimp only [initMetrics]
    rw [listMaxInt_of_all_zero]
    intro x hx
    rcases List.mem_map.mp hx with ⟨g, hg, rfl⟩
    rcases hz g hg with ⟨wg, rfl⟩
    rfl
  · dsimp only [initMetrics]
    rw [listMaxInt_of_all_zero]
    intro x hx
    rcases List.mem_map.mp hx with ⟨g, hg, rfl⟩
    rcases hz g hg with ⟨wg, rfl⟩
    rfl
  · exact seedGroups_nodupIds targetGroupIds allGroups

theorem inv_aggregate (now : Int) (targetGroupIds : List Int) (allGroups : List WorkGroup)
    (cap : Bool) (ts : List Ticket) :
    AggInv (aggregate now (seedGroups targetGroupIds allGroups) cap ts) :=
  inv_foldl now ts _ (inv_init targetGroupIds allGroups cap)

/-! ### Pagination lemmas -/

theorem fetchLoop_ok (fetch : Nat → PageResult) (u b : Nat) (acc results : List Ticket)
    (next : Option Nat) (h : fetch u = .ok results next) :
    fetchLoop fetch (some u) (b + 1) acc = fetchLoop fetch next b (acc ++ results) := by
  simp only [fetchLoop]
  rw [h]

theorem fetchLoop_err (fetch : Nat → PageResult) (u b : Nat) (acc : List Ticket)
    (h : fetch u = .err) :
    fetchLoop fetch (some u) (b + 1) acc = acc := by
  simp only [fetchLoop]
  rw [h]

theorem fetchLoopStop_ok (fetch : Nat → PageResult) (u b : Nat) (acc results : List Ticket)
    (next : Option Nat) (h : fetch u = .ok results next) :
    fetchLoopStop fetch (some u) (b + 1) acc = fetchLoopStop fetch next b (acc ++ results) := by
  simp only [fetchLoopStop]
  rw [h]

theorem fetchLoop_pagesFetch (pages : List (List Ticket)) :
    ∀ (b k : Nat) (acc : List Ticket), pages.length ≤ k + b →
      fetchLoop (pagesFetch pages) (some k) b acc = acc ++ (pages.drop k).flatten := by
  intro b
  induction b with
  | zero =>
    intro k acc h
    rw [List.drop_eq_nil_of_le (by omega)]
    simp [fetchLoop]
  | succ b ih =>
    intro k acc h
    by_cases hk : k < pages.length
    · have hget : pages[k]? = some pages[k] := List.getElem?_eq_getElem hk
      have hf : pagesFetch pages k = PageResult.ok pages[k] (some (k + 1)) := by
        simp [pagesFetch, hget]
      rw [fetchLoop_ok _ _ _ _ _ _ hf, ih (k + 1) _ (by omega),
        List.drop_eq_getElem_cons hk, List.flatten_cons, ← List.append_assoc]
    · have hget : pages[k]? = none := List.getElem?_eq_none (by omega)
      have hf : pagesFetch pages k = PageResult.err := by
        simp [pagesFetch, hget]
      rw [fetchLoop_err _ _ _ _ hf, List.drop_eq_nil_of_le (by omega)]
      simp

theorem processTicket_isCapped (now : Int) (m : DashboardMetrics) (t : Ticket) :
    (processTicket now m t).isCapped = m.isCapped := by
  cases hmem : m.groups.any (fun g => g.id = resolvedGroupId t) with
  | false => rw [processTicket_skip now m t hmem]
  | true =>
    by_cases hnew : t.status = "new"
    · rw [processTicket_new now m t hnew hmem, newGlobalUpdate_isCapped]
    · by_cases hopen : t.status = "open"
      · rw [processTicket_open now m t hopen hmem, openGlobalUpdate_isCapped]
      · rw [processTicket_other now m t hnew hopen]

theorem foldl_isCapped (now : Int) (ts : List Ticket) :
    ∀ m : DashboardMetrics, (ts.foldl (processTicket now) m).isCapped = m.isCapped := by
  induction ts with
  | nil => intro m; rfl
  | cons t ts ih => intro m; rw [List.foldl_cons, ih, processTicket_isCapped]

theorem processTicket_ids (now : Int) (m : DashboardMetrics) (t : Ticket) :
    (processTicket now m t).groups.map (fun g => g.id) = m.groups.map (fun g => g.id) := by
  cases hmem : m.groups.any (fun g => g.id = resolvedGroupId t) with
  | false => rw [processTicket_skip now m t hmem]
  | true =>
    by_cases hnew : t.status = "new"
    · rw [processTicket_new now m t hnew hmem, newGlobalUpdate_groups]
      exact updateGroup_map_field (fun g => g.id) _
        (fun g => newGroupUpdate_id _ _ _ g) m.groups _
    · by_cases hopen : t.status = "open"
      · rw [processTicket_open now m t hopen hmem, openGlobalUpdate_groups]
        exact updateGroup_map_field (fun g => g.id) _
          (fun g => openGroupUpdate_id _ _ g) m.groups _
      · rw [processTicket_other now m t hnew hopen]

theorem foldl_ids (now : Int) (ts : List Ticket) :
    ∀ m : DashboardMetrics,
      ((ts.foldl (processTicket now) m).groups).map (fun g => g.id) =
        m.groups.map (fun g => g.id) := by
  induction ts with
  | nil => intro m; rfl
  | cons t ts ih => intro m; rw [List.foldl_cons, ih, processTicket_ids]

theorem processTicket_find?_ne (now : Int) (m : DashboardMetrics) (t : Ticket) (gid : Int)
    (hne : ¬ gid = resolvedGroupId t) :
    (processTicket now m t).groups.find? (fun g => g.id = gid) =
      m.groups.find? (fun g => g.id = gid) := by
  cases hmem : m.groups.any (fun g => g.id = resolvedGroupId t) with
  | false => rw [processTicket_skip now m t hmem]
  | true =>
    by_cases hnew : t.status = "new"
    · rw [processTicket_new now m t hnew hmem, newGlobalUpdate_groups]
      exact find?_updateGroup_ne m.groups _ gid _ hne (fun g => newGroupUpdate_id _ _ _ g)
    · by_cases hopen : t.status = "open"
      · rw [processTicket_open now m t hopen hmem, openGlobalUpdate_groups]
        exact find?_updateGroup_ne m.groups _ gid _ hne (fun g => openGroupUpdate_id _ _ g)
      · rw [processTicket_other now m t hnew hopen]

theorem foldl_find?_ne (now : Int) (ts : List Ticket) (gid : Int) :
    ∀ m : DashboardMetrics, (∀ t ∈ ts, ¬ gid = resolvedGroupId t) →
      (ts.foldl (processTicket now) m).groups.find? (fun g => g.id = gid) =
        m.groups.find? (fun g => g.id = gid) := by
  induction ts with
  | nil => intro m _; rfl
  | cons t ts ih =>
    intro m h
    rw [List.foldl_cons, ih _ (fun x hx => h x (List.mem_cons_of_mem t hx)),
      processTicket_find?_ne now m t gid (h t (List.mem_cons_self t ts))]

/-! ### Sorting and projection support -/

theorem defaultLe_trans (a b c : GroupMetric)
    (hab : defaultLe a b = true) (hbc : defaultLe b c = true) : defaultLe a c = true := by
  simp only [defaultLe, Bool.or_eq_true, Bool.and_eq_true, decide_eq_true_eq] at *
  omega

theorem defaultLe_total (a b : GroupMetric) : (defaultLe a b || defaultLe b a) = true := by
  simp only [defaultLe, Bool.or_eq_true, Bool.and_eq_true, decide_eq_true_eq]
  omega

theorem listMaxInt_perm (l1 l2 : List Int) (h : l1.Perm l2) :
    listMaxInt l1 = listMaxInt l2 := by
  induction h with
  | nil => rfl
  | cons x _ ih => rw [listMaxInt_cons, listMaxInt_cons, ih]
  | swap x y l =>
    rw [listMaxInt_cons, listMaxInt_cons, listMaxInt_cons, listMaxInt_cons,
      ← max_assoc, max_comm y x, max_assoc]
  | trans _ _ ih1 ih2 => rw [ih1, ih2]

theorem filter_contains_ids_self (gs : List GroupMetric) :
    gs.filter (fun g => (gs.map (fun x => x.id)).contains g.id) = gs := by
  refine List.filter_eq_self.mpr (fun g hg => ?_)
  simpa using List.mem_map.mpr ⟨g, hg, rfl⟩

/-! ### Further helpers for the claim theorems -/

theorem newGroupUpdate_msg_counts (w : Int) (u : Bool) (g : GroupMetric) :
    (newGroupUpdate true w u g).newMsg = g.newMsg + 1 ∧
      (newGroupUpdate true w u g).newEmail = g.newEmail := by
  simp only [newGroupUpdate]
  split_ifs <;> simp_all

theorem newGroupUpdate_email_counts (w : Int) (u : Bool) (g : GroupMetric) :
    (newGroupUpdate false w u g).newEmail = g.newEmail + 1 ∧
      (newGroupUpdate false w u g).newMsg = g.newMsg := by
  simp only [newGroupUpdate]
  split_ifs <;> simp_all

theorem newGroupUpdate_of_assigned (isMsg : Bool) (w : Int) (g : GroupMetric) :
    newGroupUpdate isMsg w false g =
      (if isMsg then { g with newMsg := g.newMsg + 1 }
       else { g with newEmail := g.newEmail + 1 }) := by
  simp only [newGroupUpdate]
  split_ifs <;> simp_all

theorem project_full_of_inv (m : DashboardMetrics) (h : AggInv m) :
    (projectMetrics m (m.groups.map (fun g => g.id)) none).totalNew = m.totalNew ∧
    (projectMetrics m (m.groups.map (fun g => g.id)) none).totalOpen = m.totalOpen ∧
    (projectMetrics m (m.groups.map (fun g => g.id)) none).breachedWaitCount =
      m.breachedWaitCount ∧
    (projectMetrics m (m.groups.map (fun g => g.id)) none).breachedHandleCount =
      m.breachedHandleCount ∧
    (projectMetrics m (m.groups.map (fun g => g.id)) none).longestWaitTime =
      m.longestWaitTime ∧
    (projectMetrics m (m.groups.map (fun g => g.id)) none).longestHandleTime =
      m.longestHandleTime ∧
    (projectMetrics m (m.groups.map (fun g => g.id)) none).isCapped = m.isCapped ∧
    ((projectMetrics m (m.groups.map (fun g => g.id)) none).groups).Perm m.groups ∧
    (projectMetrics m (m.groups.map (fun g => g.id)) none).longestWaitTicketId = 0 ∧
    (projectMetrics m (m.groups.map (fun g => g.id)) none).longestHandleTicketId = 0 := by
  obtain ⟨h1, h2, h3, h4, h5, h6, _⟩ := h
  have hsel := filter_contains_ids_self m.groups
  have hperm : (defaultSort m.groups).Perm m.groups := List.mergeSort_perm m.groups defaultLe
  unfold projectMetrics
  rw [hsel]
  dsimp only
  refine ⟨?_, ?_, ?_, ?_, ?_, ?_, rfl, hperm, rfl, rfl⟩
  · exact ((hperm.map (fun g => g.newEmail + g.newMsg)).sum_eq).trans h1.symm
  · exact ((hperm.map (fun g => g.openEmail + g.openMsg)).sum_eq).trans h2.symm
  · exact ((hperm.map (fun g => g.breachedWait)).sum_eq).trans h3.symm
  · exact ((hperm.map (fun g => g.breachedAHT)).sum_eq).trans h4.symm
  · exact (listMaxInt_perm _ _ (hperm.map maxWaitAcross)).trans h5.symm
  · exact (listMaxInt_perm _ _ (hperm.map maxAHTAcross)).trans h6.symm

/-! ### Claim theorems -/

/-- C2: for every group set and ticket list, the base aggregate satisfies:
totalNew equals the sum over groups of (newEmail + newMsg); totalOpen equals
the sum over groups of (openEmail + openMsg); breachedWaitCount equals the
sum over groups of breachedWait; and breachedHandleCount equals the sum over
groups of breachedAHT. -/
theorem C2_totals_are_group_sums (targetGroupIds : List Int) (allGroups : List WorkGroup)
    (now : Int) (cap : Bool) (ts : List Ticket) :
    (aggregate now (seedGroups targetGroupIds allGroups) cap ts).totalNew =
      ((aggregate now (seedGroups targetGroupIds allGroups) cap ts).groups.map
        (fun g => g.newEmail + g.newMsg)).sum ∧
    (aggregate now (seedGroups targetGroupIds allGroups) cap ts).totalOpen =
      ((aggregate now (seedGroups targetGroupIds allGroups) cap ts).groups.map
        (fun g => g.openEmail + g.openMsg)).sum ∧
    (aggregate now (seedGroups targetGroupIds allGroups) cap ts).breachedWaitCount =
      ((aggregate now (seedGroups targetGroupIds allGroups) cap ts).groups.map
        (fun g => g.breachedWait)).sum ∧
    (aggregate now (seedGroups targetGroupIds allGroups) cap ts).breachedHandleCount =
      ((aggregate now (seedGroups targetGroupIds allGroups) cap ts).groups.map
        (fun g => g.breachedAHT)).sum := by
  obtain ⟨h1, h2, h3, h4, _, _, _⟩ := inv_aggregate now targetGroupIds allGroups cap ts
  exact ⟨h1, h2, h3, h4⟩

/-- C3 counterexample: a ticket with status `pending` whose group 5 is
seeded leaves the aggregate's group list exactly as seeded — in particular
the pending count stays 0 instead of being incremented. -/
theorem C3_counterexample :
    (aggregate 0 (seedGroups [] [⟨5, "Support"⟩]) false
        [(⟨3, "s", "pending", none, some 5, 0, 0, "chat"⟩ : Ticket)]).groups =
      [seedZero ⟨5, "Support"⟩] ∧
    (seedZero (⟨5, "Support"⟩ : WorkGroup)).pendingTickets = 0 := by
  constructor <;> rfl

/-- C3 (amended): the aggregation pass ignores a ticket with status
`pending` entirely — no group or global counter changes; in particular the
group's pending count is not incremented, and there is no latency or breach
accounting.  (The fetch query also excludes pending tickets via
`status<pending`.) -/
theorem C3_pending_ignored (now : Int) (m : DashboardMetrics) (t : Ticket)
    (hp : t.status = "pending") : processTicket now m t = m := by
  have hnew : ¬ t.status = "new" := by rw [hp]; decide
  have hopen : ¬ t.status = "open" := by rw [hp]; decide
  cases hmem : m.groups.any (fun g => g.id = resolvedGroupId t) with
  | false => exact processTicket_skip now m t hmem
  | true => exact processTicket_other now m t hnew hopen

/-- Witness for C3: a concrete pending ticket leaves a concrete metrics
record unchanged. -/
theorem C3_pending_ignored_witness :
    processTicket 0 (initMetrics [seedZero ⟨5, "Support"⟩] false)
        (⟨3, "s", "pending", none, some 5, 0, 0, "chat"⟩ : Ticket) =
      initMetrics [seedZero ⟨5, "Support"⟩] false :=
  C3_pending_ignored 0 (initMetrics [seedZero ⟨5, "Support"⟩] false)
    (⟨3, "s", "pending", none, some 5, 0, 0, "chat"⟩ : Ticket) rfl

set_option maxRecDepth 8000 in
/-- C4 counterexample: a backend serving endless single-ticket pages makes
the loop stop because the 50-page budget ran out with a cursor still
present (the instrumented loop reports `true`), yet the returned `isCapped`
is `false`, because only 50 tickets — fewer than 1000 — were accumulated.
So `isCapped` is not `true` iff the page ceiling stopped the pagination. -/
theorem C4_counterexample :
    (fetchLoopStop
        (fun _ => PageResult.ok [(⟨1, "s", "new", none, some 5, 0, 0, "chat"⟩ : Ticket)]
          (some 0)) (some 0) PAGE_CAP []).2 = true ∧
    (fetchTicketData [] []
        (fun _ => PageResult.ok [(⟨1, "s", "new", none, some 5, 0, 0, "chat"⟩ : Ticket)]
          (some 0)) 0).isCapped = false := by
  constructor <;> rfl

/-- C4 (amended): `isCapped` reports fetched volume, not the stop reason:
it is true exactly when the pagination loop accumulated at least 1000
tickets (with 100-ticket pages a full 50-page run sets it, but a cap hit
with short pages reports false, and an exhausted cursor with ≥ 1000 tickets
reports true). -/
theorem C4_isCapped_iff_volume (targetGroupIds : List Int) (allGroups : List WorkGroup)
    (fetch : Nat → PageResult) (now : Int) :
    (fetchTicketData targetGroupIds allGroups fetch now).isCapped = true ↔
      1000 ≤ (fetchLoop fetch (some 0) PAGE_CAP []).length := by
  unfold fetchTicketData aggregate
  rw [foldl_isCapped]
  simp [initMetrics]

unseal List.merge List.mergeSort in
/-- C5 counterexample: two groups tie on total breaches; group A has the
larger max(longest wait, longest handle) (100 from its handle time) while
group B has the larger wait-only maximum.  The code sorts B before A, so
the displayed order is not sorted by the claimed comparator (which would
demand A before B). -/
theorem C5_counterexample :
    defaultSort [(⟨1, "A", 0, 0, 100, 0, 0, 0, 0, 0, 0, 0, 0, 1⟩ : GroupMetric),
        (⟨2, "B", 1, 0, 0, 0, 0, 0, 0, 0, 0, 0, 0, 1⟩ : GroupMetric)] =
      [(⟨2, "B", 1, 0, 0, 0, 0, 0, 0, 0, 0, 0, 0, 1⟩ : GroupMetric),
       (⟨1, "A", 0, 0, 100, 0, 0, 0, 0, 0, 0, 0, 0, 1⟩ : GroupMetric)] ∧
    ¬ List.Pairwise (fun a b => specDefaultLe a b = true)
        (defaultSort [(⟨1, "A", 0, 0, 100, 0, 0, 0, 0, 0, 0, 0, 0, 1⟩ : GroupMetric),
          (⟨2, "B", 1, 0, 0, 0, 0, 0, 0, 0, 0, 0, 0, 1⟩ : GroupMetric)]) := by
  constructor
  · rfl
  · decide

/-- C5 (amended): with no explicit sort column the displayed group order is
a permutation of the input sorted descending by total-breach count with
ties broken by descending max of the per-channel longest WAITS only — the
longest handle times are not consulted by the tie-break. -/
theorem C5_default_order (gs : List GroupMetric) :
    (defaultSort gs).Perm gs ∧
      List.Pairwise (fun a b => defaultLe a b = true) (defaultSort gs) :=
  ⟨List.mergeSort_perm gs defaultLe,
   List.sorted_mergeSort defaultLe_trans defaultLe_total gs⟩

/-- C7 counterexample: with `now = 0` and a creation timestamp 90 seconds in
the future, the computed wait is -1 minutes — not floor(-1.5) = -2 — and it
is negative, contradicting both parts of the claim. -/
theorem C7_counterexample :
    differenceInMinutes 0 90000 = -1 ∧
    Int.fdiv (0 - 90000) 60000 = -2 ∧
    differenceInMinutes 0 90000 < 0 := by
  refine ⟨by decide, by decide, by decide⟩

/-- C7 (amended): waitMinutes and handleMinutes are the minute differences
rounded toward zero; whenever `created_at ≤ now` (resp. `updated_at ≤ now`)
they coincide with the floor and are non-negative.  (For timestamps in the
future the value is negative and truncation differs from floor.) -/
theorem C7_minutes_floor (now created updated : Int)
    (hc : created ≤ now) (hu : updated ≤ now) :
    differenceInMinutes now created = Int.fdiv (now - created) 60000 ∧
    0 ≤ differenceInMinutes now created ∧
    differenceInMinutes now updated = Int.fdiv (now - updated) 60000 ∧
    0 ≤ differenceInMinutes now updated := by
  unfold differenceInMinutes
  exact ⟨(Int.fdiv_eq_tdiv (by omega) (by omega)).symm,
    Int.tdiv_nonneg (by omega) (by omega),
    (Int.fdiv_eq_tdiv (by omega) (by omega)).symm,
    Int.tdiv_nonneg (by omega) (by omega)⟩

/-- Witness for C7 (amended) at a concrete instant. -/
theorem C7_minutes_floor_witness :
    differenceInMinutes 120000 0 = Int.fdiv (120000 - 0) 60000 ∧
    0 ≤ differenceInMinutes 120000 0 ∧
    differenceInMinutes 120000 60000 = Int.fdiv (120000 - 60000) 60000 ∧
    0 ≤ differenceInMinutes 120000 60000 :=
  C7_minutes_floor 120000 0 60000 (by decide) (by decide)

/-- C8: when a page request fails mid-pagination (a backend with
`pages.length < 50` good pages whose next request fails), the loop keeps
exactly the pages already fetched, aggregation proceeds over them, and the
call still resolves — the failure is not surfaced as an error. -/
theorem C8_page_failure (pages : List (List Ticket)) (targetGroupIds : List Int)
    (allGroups : List WorkGroup) (now : Int) (hlen : pages.length < PAGE_CAP) :
    fetchTicketDataE true targetGroupIds allGroups (pagesFetch pages) now =
      Except.ok (aggregate now (seedGroups targetGroupIds allGroups)
        (decide (1000 ≤ pages.flatten.length)) pages.flatten) := by
  unfold fetchTicketDataE fetchTicketData
  rw [if_pos rfl, fetchLoop_pagesFetch pages PAGE_CAP 0 [] (by omega)]
  simp

/-- Witness for C8: a two-page backend whose third request fails. -/
theorem C8_page_failure_witness :
    fetchTicketDataE true [] []
        (pagesFetch [[(⟨1, "s", "new", none, some 5, 0, 0, "chat"⟩ : Ticket)],
          [(⟨2, "s", "open", some 9, some 5, 0, 0, "email"⟩ : Ticket)]]) 0 =
      Except.ok (aggregate 0 (seedGroups [] [])
        (decide (1000 ≤ ([[(⟨1, "s", "new", none, some 5, 0, 0, "chat"⟩ : Ticket)],
          [(⟨2, "s", "open", some 9, some 5, 0, 0, "email"⟩ : Ticket)]] :
            List (List Ticket)).flatten.length))
        ([[(⟨1, "s", "new", none, some 5, 0, 0, "chat"⟩ : Ticket)],
          [(⟨2, "s", "open", some 9, some 5, 0, 0, "email"⟩ : Ticket)]] :
            List (List Ticket)).flatten) :=
  C8_page_failure [[(⟨1, "s", "new", none, some 5, 0, 0, "chat"⟩ : Ticket)],
    [(⟨2, "s", "open", some 9, some 5, 0, 0, "email"⟩ : Ticket)]] [] [] 0 (by decide)

/-- C10: the aggregate's group list carries exactly one metric per listed
group passing the optional target filter, in listing order (when the
listing has no duplicate ids); ticket processing never adds or removes an
entry (the id sequence is unchanged); and a group id that no ticket
resolves to keeps its seeded all-zero metric. -/
theorem C10_registry_groups (targetGroupIds : List Int) (allGroups : List WorkGroup)
    (now : Int) (cap : Bool) (ts : List Ticket) (gid : Int) :
    (aggregate now (seedGroups targetGroupIds allGroups) cap ts).groups.map
        (fun g => g.id) =
      (seedGroups targetGroupIds allGroups).map (fun g => g.id) ∧
    ((allGroups.map (fun g => g.id)).Nodup →
      seedGroups targetGroupIds allGroups =
        (allGroups.filter
          (fun g => targetGroupIds.isEmpty || targetGroupIds.contains g.id)).map seedZero) ∧
    ((∀ t ∈ ts, ¬ gid = resolvedGroupId t) →
      (aggregate now (seedGroups targetGroupIds allGroups) cap ts).groups.find?
          (fun g => g.id = gid) =
        (seedGroups targetGroupIds allGroups).find? (fun g => g.id = gid)) := by
  refine ⟨foldl_ids now ts _, seedGroups_eq_filter targetGroupIds allGroups, ?_⟩
  intro h
  exact foldl_find?_ne now ts gid _ h

/-- Witness for C10 at a concrete registry and empty ticket list. -/
theorem C10_registry_groups_witness :
    seedGroups [] [(⟨5, "Support"⟩ : WorkGroup)] =
      (([(⟨5, "Support"⟩ : WorkGroup)]).filter
        (fun g => ([] : List Int).isEmpty || ([] : List Int).contains g.id)).map seedZero ∧
    (aggregate 0 (seedGroups [] [(⟨5, "Support"⟩ : WorkGroup)]) false []).groups.find?
        (fun g => g.id = 5) =
      (seedGroups [] [(⟨5, "Support"⟩ : WorkGroup)]).find? (fun g => g.id = 5) :=
  ⟨(C10_registry_groups [] [(⟨5, "Support"⟩ : WorkGroup)] 0 false [] 5).2.1 (by decide),
   (C10_registry_groups [] [(⟨5, "Support"⟩ : WorkGroup)] 0 false [] 5).2.2 (by simp)⟩

/-- C6: for a ticket with status `new` whose resolved group id is seeded,
the global new total and the group's channel new-count are incremented
regardless of assignment; the ticket feeds longest-wait tracking and
wait-breach counting exactly when it has no assignee: with an assignee all
longest-wait fields and wait-breach counters (global and group) are
untouched, and without one the global longest wait becomes the strict max
and the breach counters gain 1 iff the wait strictly exceeds the
threshold. -/
theorem C6_new_ticket (now : Int) (m : DashboardMetrics) (t : Ticket) (g : GroupMetric)
    (hnew : t.status = "new")
    (hfind : m.groups.find? (fun x => x.id = resolvedGroupId t) = some g) :
    (processTicket now m t).totalNew = m.totalNew + 1 ∧
    (processTicket now m t).groups.find? (fun x => x.id = resolvedGroupId t) =
      some (newGroupUpdate (isMessaging t.via_channel)
        (differenceInMinutes now t.created_at) t.assignee_id.isNone g) ∧
    (isMessaging t.via_channel = true →
      (newGroupUpdate (isMessaging t.via_channel) (differenceInMinutes now t.created_at)
          t.assignee_id.isNone g).newMsg = g.newMsg + 1) ∧
    (isMessaging t.via_channel = false →
      (newGroupUpdate (isMessaging t.via_channel) (differenceInMinutes now t.created_at)
          t.assignee_id.isNone g).newEmail = g.newEmail + 1) ∧
    (¬ t.assignee_id = none →
      (processTicket now m t).longestWaitTime = m.longestWaitTime ∧
      (processTicket now m t).longestWaitTicketId = m.longestWaitTicketId ∧
      (processTicket now m t).breachedWaitCount = m.breachedWaitCount ∧
      newGroupUpdate (isMessaging t.via_channel) (differenceInMinutes now t.created_at)
          t.assignee_id.isNone g =
        (if isMessaging t.via_channel then { g with newMsg := g.newMsg + 1 }
         else { g with newEmail := g.newEmail + 1 })) ∧
    (t.assignee_id = none →
      (processTicket now m t).longestWaitTime =
        max m.longestWaitTime (differenceInMinutes now t.created_at) ∧
      (processTicket now m t).breachedWaitCount = m.breachedWaitCount +
        (if WAIT_TIME_BREACH < differenceInMinutes now t.created_at then 1 else 0)) := by
  have hpg : g.id = resolvedGroupId t := by simpa using List.find?_some hfind
  have hgmem : g ∈ m.groups := List.mem_of_find?_eq_some hfind
  have hmem : m.groups.any (fun x => x.id = resolvedGroupId t) = true :=
    List.any_eq_true.mpr ⟨g, hgmem, by simpa using hpg⟩
  rw [processTicket_new now m t hnew hmem]
  refine ⟨?_, ?_, ?_, ?_, ?_, ?_⟩
  · rw [newGlobalUpdate_totalNew]
  · rw [newGlobalUpdate_groups]
    dsimp only
    rw [find?_updateGroup_self m.groups _ _ (fun x => newGroupUpdate_id _ _ _ x), hfind]
    rfl
  · intro hmsg; rw [hmsg]; exact (newGroupUpdate_msg_counts _ _ g).1
  · intro hmsg; rw [hmsg]; exact (newGroupUpdate_email_counts _ _ g).1
  · intro hassign
    have hN : t.assignee_id.isNone = false := by
      cases ha : t.assignee_id with
      | none => exact absurd ha hassign
      | some v => rfl
    rw [newGlobalUpdate_assigned _ _ _ hN]
    refine ⟨rfl, rfl, rfl, ?_⟩
    rw [hN, newGroupUpdate_of_assigned]
  · intro hassign
    have hN : t.assignee_id.isNone = true := by rw [hassign]; rfl
    constructor
    · rw [newGlobalUpdate_longestWaitTime, if_pos hN]
    · rw [newGlobalUpdate_breachedWaitCount]
      simp [hN]

/-- Witness for C6: an unassigned new chat ticket in seeded group 5 bumps
the global new total. -/
theorem C6_new_ticket_witness :
    (processTicket 1860000 (initMetrics [seedZero ⟨5, "Support"⟩] false)
        (⟨42, "s", "new", none, some 5, 0, 0, "chat"⟩ : Ticket)).totalNew =
      (initMetrics [seedZero ⟨5, "Support"⟩] false).totalNew + 1 :=
  (C6_new_ticket 1860000 (initMetrics [seedZero ⟨5, "Support"⟩] false)
    (⟨42, "s", "new", none, some 5, 0, 0, "chat"⟩ : Ticket) (seedZero ⟨5, "Support"⟩)
    rfl (by decide)).1

/-- C9: breaches are counted under strict comparison with the thresholds:
for an unassigned new ticket the global wait-breach counter and the group's
wait-breach counter gain exactly (if 30 < waitMinutes then 1 else 0); for
an open ticket the handle counters gain exactly
(if 20 < handleMinutes then 1 else 0).  A wait exactly equal to the
threshold therefore adds nothing. -/
theorem C9_strict_threshold (now : Int) (m : DashboardMetrics) (t : Ticket) (g : GroupMetric)
    (hfind : m.groups.find? (fun x => x.id = resolvedGroupId t) = some g) :
    (t.status = "new" → t.assignee_id = none →
      (processTicket now m t).breachedWaitCount = m.breachedWaitCount +
        (if WAIT_TIME_BREACH < differenceInMinutes now t.created_at then 1 else 0) ∧
      ((processTicket now m t).groups.find? (fun x => x.id = resolvedGroupId t)).map
          (fun x => x.breachedWait) =
        some (g.breachedWait +
          (if WAIT_TIME_BREACH < differenceInMinutes now t.created_at then 1 else 0))) ∧
    (t.status = "open" →
      (processTicket now m t).breachedHandleCount = m.breachedHandleCount +
        (if HANDLE_TIME_BREACH < differenceInMinutes now t.updated_at then 1 else 0) ∧
      ((processTicket now m t).groups.find? (fun x => x.id = resolvedGroupId t)).map
          (fun x => x.breachedAHT) =
        some (g.breachedAHT +
          (if HANDLE_TIME_BREACH < differenceInMinutes now t.updated_at then 1 else 0))) := by
  have hpg : g.id = resolvedGroupId t := by simpa using List.find?_some hfind
  have hgmem : g ∈ m.groups := List.mem_of_find?_eq_some hfind
  have hmem : m.groups.any (fun x => x.id = resolvedGroupId t) = true :=
    List.any_eq_true.mpr ⟨g, hgmem, by simpa using hpg⟩
  constructor
  · intro hnew hassign
    have hN : t.assignee_id.isNone = true := by rw [hassign]; rfl
    rw [processTicket_new now m t hnew hmem]
    constructor
    · rw [newGlobalUpdate_breachedWaitCount]
      simp [hN]
    · rw [newGlobalUpdate_groups]
      dsimp only
      rw [find?_updateGroup_self m.groups _ _ (fun x => newGroupUpdate_id _ _ _ x), hfind]
      simp [newGroupUpdate_breachedWait, hN]
  · intro hopen
    rw [processTicket_open now m t hopen hmem]
    constructor
    · rw [openGlobalUpdate_breachedHandleCount]
    · rw [openGlobalUpdate_groups]
      dsimp only
      rw [find?_updateGroup_self m.groups _ _ (fun x => openGroupUpdate_id _ _ x), hfind]
      simp [openGroupUpdate_breachedAHT]

/-- Witness for C9 at the exact boundary: a new unassigned ticket whose
wait is exactly 30 minutes does not move the wait-breach counter. -/
theorem C9_strict_threshold_witness :
    (processTicket 1800000 (initMetrics [seedZero ⟨5, "Support"⟩] false)
        (⟨7, "s", "new", none, some 5, 0, 0, "chat"⟩ : Ticket)).breachedWaitCount =
      (initMetrics [seedZero ⟨5, "Support"⟩] false).breachedWaitCount +
        (if WAIT_TIME_BREACH <
            differenceInMinutes 1800000
              (⟨7, "s", "new", none, some 5, 0, 0, "chat"⟩ : Ticket).created_at
          then 1 else 0) :=
  ((C9_strict_threshold 1800000 (initMetrics [seedZero ⟨5, "Support"⟩] false)
      (⟨7, "s", "new", none, some 5, 0, 0, "chat"⟩ : Ticket) (seedZero ⟨5, "Support"⟩)
      (by decide)).1 rfl rfl).1

/-- C1 counterexample: one unassigned new ticket (id 42, 31 minutes old) in
the single registered group: the base aggregate records ticket 42 as the
owner of the global longest wait, but projecting over the full group id set
returns ticket id 0 — so the projection is not equal to the base aggregate
field for field. -/
theorem C1_counterexample :
    (aggregate 1860000 (seedGroups [] [⟨5, "Support"⟩]) false
        [(⟨42, "s", "new", none, some 5, 0, 0, "chat"⟩ : Ticket)]).longestWaitTicketId = 42 ∧
    (projectMetrics
        (aggregate 1860000 (seedGroups [] [⟨5, "Support"⟩]) false
          [(⟨42, "s", "new", none, some 5, 0, 0, "chat"⟩ : Ticket)])
        ((aggregate 1860000 (seedGroups [] [⟨5, "Support"⟩]) false
          [(⟨42, "s", "new", none, some 5, 0, 0, "chat"⟩ : Ticket)]).groups.map
            (fun g => g.id))
        none).longestWaitTicketId = 0 := by
  constructor <;> rfl

/-- C1 (amended): projecting the base aggregate over the full set of its
group ids with no explicit sort column reproduces the global totals, the
breach counts, the longest wait/handle times and the capped flag, and
returns the groups collection as a permutation of the base list (reordered
by the default sort); the longest-wait and longest-handle ticket ids are
reset to 0 by the projection rather than preserved. -/
theorem C1_project_full_set (targetGroupIds : List Int) (allGroups : List WorkGroup)
    (now : Int) (cap : Bool) (ts : List Ticket) :
    let m := aggregate now (seedGroups targetGroupIds allGroups) cap ts
    let p := projectMetrics m (m.groups.map (fun g => g.id)) none
    p.totalNew = m.totalNew ∧ p.totalOpen = m.totalOpen ∧
    p.breachedWaitCount = m.breachedWaitCount ∧
    p.breachedHandleCount = m.breachedHandleCount ∧
    p.longestWaitTime = m.longestWaitTime ∧
    p.longestHandleTime = m.longestHandleTime ∧
    p.isCapped = m.isCapped ∧
    p.groups.Perm m.groups ∧
    p.longestWaitTicketId = 0 ∧ p.longestHandleTicketId = 0 :=
  project_full_of_inv _ (inv_aggregate now targetGroupIds allGroups cap ts)
